import Mathlib

/-!
Shallow embedding of the band-gap-energy-simulation backend (src/backend.py).

Readings hold exact rational numbers (the idealisation of the Python floats);
the estimator's logarithm lives in the reals.  Python exceptions that escape a
handler are modelled as `Except.error`; an HTTP response is a status code
paired with a body.
-/

namespace BandGapSim

/-- One accepted experimental observation (backend.py keeps these as dicts with
three float fields after `log_data` coerces them). -/
structure Reading where
  temperature : ℚ
  current : ℚ
  voltage : ℚ
deriving DecidableEq, Repr

/-- A JSON value arriving in a payload field, as far as `float(...)` cares:
either a numeric value (number or numeric string, already identified with the
float it converts to) or a value `float` rejects, carrying text for the error
message. -/
inductive PyVal where
  | num (v : ℚ)
  | unparsable (s : String)
deriving DecidableEq, Repr

/-- The JSON body posted to `/api/log_data`: `data.get(key)` yields `none` when
the key is missing. -/
structure Payload where
  temperature : Option PyVal
  current : Option PyVal
  voltage : Option PyVal
deriving DecidableEq, Repr

/-- `float(x)` for `x = data.get(key)`: raises on a missing key (`None`) or an
unconvertible value, otherwise returns the parsed number. -/
def pyFloat : Option PyVal → Except String ℚ
  | none => .error "float() argument must be a string or a number, not NoneType"
  | some (.num v) => .ok v
  | some (.unparsable s) => .error ("could not convert string to float: " ++ s)

/-- Body of a `/api/log_data` response: `{"error": ...}` or `{"message", "id"}`. -/
inductive LogBody where
  | errMsg (s : String)
  | okBody (message : String) (id : ℕ)
deriving DecidableEq, Repr

/-- Success message of `log_data` (backend.py line 46). -/
def loggedMsg : String := "Data logged successfully"

/-- `log_data` (backend.py lines 32-49): parse the three fields in order
inside the `try`; on the first failure the `except` returns 500 and the store
is untouched; on success append and return 201 with the new index
`len(EXPERIMENTAL_DATA_LOG) - 1`. -/
def log_data (store : List Reading) (p : Payload) :
    List Reading × (ℕ × LogBody) :=
  match pyFloat p.temperature with
  | .error e => (store, (500, .errMsg ("Failed to log data: " ++ e)))
  | .ok t =>
    match pyFloat p.current with
    | .error e => (store, (500, .errMsg ("Failed to log data: " ++ e)))
    | .ok c =>
      match pyFloat p.voltage with
      | .error e => (store, (500, .errMsg ("Failed to log data: " ++ e)))
      | .ok v =>
        (store ++ [⟨t, c, v⟩], (201, .okBody loggedMsg store.length))

/-- The pure parsing part of `log_data`: the reading the payload yields, or
the first conversion error raised. -/
def parseReading (p : Payload) : Except String Reading := do
  let t ← pyFloat p.temperature
  let c ← pyFloat p.current
  let v ← pyFloat p.voltage
  pure ⟨t, c, v⟩

/-- `get_all_data` (backend.py lines 51-54): the whole log plus its length. -/
def get_all_data (store : List Reading) : List Reading × ℕ :=
  (store, store.length)

/-- A sequence of `/api/log_data` calls starting from a given store: final
store plus the response of each call in order. -/
def runIngest : List Reading → List Payload → List Reading × List (ℕ × LogBody)
  | store, [] => (store, [])
  | store, p :: ps =>
    ((runIngest (log_data store p).1 ps).1,
      (log_data store p).2 :: (runIngest (log_data store p).1 ps).2)

/-- The readings a payload sequence successfully ingests, in order. -/
def successes (ps : List Payload) : List Reading :=
  ps.filterMap (fun p => (parseReading p).toOption)

/-! ## The band-gap estimator -/

/-- Message of the `ZeroDivisionError` Python raises for `1 / 0.0`. -/
def zeroDivMsg : String := "ZeroDivisionError: float division by zero"

/-- `math.log` (CPython): raises a `ValueError` on a non-positive argument,
otherwise the natural logarithm. -/
noncomputable def mathLog (q : ℚ) : Except String ℝ :=
  if q ≤ 0 then .error "ValueError: math domain error"
  else .ok (Real.log (q : ℝ))

/-- The filtering/transform loop of `calculate_band_gap` (backend.py lines
60-70): for each reading in store order, with `T_kelvin = temperature +
273.15`, a reading with `current > 1e-9` contributes `1 / T_kelvin` to
`X_inv_T` (raising `ZeroDivisionError` when `T_kelvin = 0`) and
`math.log(current)` to `Y_ln_I`; any other reading is skipped.  A raised
exception aborts the whole handler. -/
noncomputable def buildPoints : List Reading → Except String (List ℚ × List ℝ)
  | [] => .ok ([], [])
  | r :: rest =>
    let T_kelvin := r.temperature + 273.15
    if 1e-9 < r.current then
      if T_kelvin = 0 then .error zeroDivMsg
      else
        match mathLog r.current with
        | .error e => .error e
        | .ok y =>
          match buildPoints rest with
          | .error e => .error e
          | .ok (xs, ys) => .ok (1 / T_kelvin :: xs, y :: ys)
    else buildPoints rest

/-- Number of readings passing the `current > 1e-9` filter. -/
def countValid (store : List Reading) : ℕ :=
  (store.filter (fun r => decide (1e-9 < r.current))).length

/-- Sum of the x array. -/
def sumX (xs : List ℚ) : ℚ := xs.sum

/-- Sum of squares of the x array. -/
def sumX2 (xs : List ℚ) : ℚ := (xs.map (fun x => x * x)).sum

/-- Sum of the y array. -/
noncomputable def sumY (ys : List ℝ) : ℝ := ys.sum

/-- Sum of squares of the y array. -/
noncomputable def sumY2 (ys : List ℝ) : ℝ := (ys.map (fun y => y * y)).sum

/-- Sum of pointwise products of the x and y arrays. -/
noncomputable def dotXY (xs : List ℚ) (ys : List ℝ) : ℝ :=
  (List.zipWith (fun x y => (x : ℝ) * y) xs ys).sum

/-- `np.polyfit(X, Y, 1)` (backend.py line 77), modelled as the degree-1
ordinary-least-squares fit it computes: the normal-equation solution
`slope = (n·Σxy − Σx·Σy) / (n·Σx² − (Σx)²)`,
`intercept = (Σy − slope·Σx) / n`, highest-degree coefficient first.  A fit
on degenerate input (zero denominator), which the spec directs to treat as a
numerical failure caught by the handler's `try`, is an error. -/
noncomputable def polyfit (xs : List ℚ) (ys : List ℝ) : Except String (ℝ × ℝ) :=
  let n : ℚ := (xs.length : ℚ)
  let d : ℚ := n * sumX2 xs - sumX xs * sumX xs
  if d = 0 then .error "SVD did not converge in Linear Least Squares"
  else
    let slope : ℝ := ((n : ℝ) * dotXY xs ys - (sumX xs : ℝ) * sumY ys) / (d : ℝ)
    .ok (slope, (sumY ys - slope * (sumX xs : ℝ)) / (n : ℝ))

/-- The `[0,1]` entry of `np.corrcoef(X, Y)` (backend.py line 86): the Pearson
correlation coefficient
`r = (n·Σxy − Σx·Σy) / (sqrt(n·Σx² − (Σx)²)·sqrt(n·Σy² − (Σy)²))`.
Zero variance in either array leaves `r` undefined; the spec directs such an
undefined correlation to be treated as a numerical failure caught by the
handler's `try`, so it is an error here. -/
noncomputable def pearsonr (xs : List ℚ) (ys : List ℝ) : Except String ℝ :=
  let n : ℚ := (xs.length : ℚ)
  let dx : ℚ := n * sumX2 xs - sumX xs * sumX xs
  let dy : ℝ := (n : ℝ) * sumY2 ys - sumY ys * sumY ys
  if dx = 0 ∨ dy = 0 then .error "invalid value encountered in correlation"
  else
    .ok (((n : ℝ) * dotXY xs ys - (sumX xs : ℝ) * sumY ys) /
      (Real.sqrt (dx : ℝ) * Real.sqrt dy))

/-- Success body of `/api/calculate_band_gap` (backend.py lines 92-101). -/
structure CalcSuccess where
  message : String
  band_gap_eV : ℝ
  r_squared : ℝ
  slope_value : ℝ
  inv_T : List ℝ
  ln_I : List ℝ

/-- Body of a `/api/calculate_band_gap` response. -/
inductive CalcBody where
  | errMsg (s : String)
  | success (b : CalcSuccess)

/-- Error message of the insufficient-data 400 response (backend.py line 73). -/
def insufficientMsg : String :=
  "Not enough valid data points for calculation (need at least 2 non-zero current readings)."

/-- Success message of `calculate_band_gap` (backend.py line 93). -/
def calcOkMsg : String := "Calculation successful"

/-- `calculate_band_gap` (backend.py lines 56-101): build the working set
(exceptions propagate uncaught), return 400 when it has fewer than 2 points,
otherwise fit inside a `try` (a numerical failure becomes a 500), then return
200 with `Eg = -2 * k_B * slope`, `r_squared = corrcoef[0,1]**2`, the slope
and the transformed points. -/
noncomputable def calculate_band_gap (store : List Reading) :
    Except String (ℕ × CalcBody) :=
  match buildPoints store with
  | .error e => .error e
  | .ok (xs, ys) =>
    if xs.length < 2 then .ok (400, .errMsg insufficientMsg)
    else
      match polyfit xs ys with
      | .error e => .ok (500, .errMsg ("Linear fit failed: " ++ e))
      | .ok (slope, _intercept) =>
        let k_B : ℝ := 8.617e-5
        let Eg : ℝ := -2 * k_B * slope
        match pearsonr xs ys with
        | .error e => .ok (500, .errMsg ("Linear fit failed: " ++ e))
        | .ok r =>
          .ok (200, .success
            ⟨calcOkMsg, Eg, r ^ 2, slope, xs.map (fun x => (x : ℝ)), ys⟩)

/-- The `/api/calculate_band_gap` route as a state transformer over the global
`EXPERIMENTAL_DATA_LOG`: the route only reads the log (backend.py lines
56-101 contain no assignment or mutating call on it), so the state component
is returned unchanged. -/
noncomputable def calculate_band_gap_handler (store : List Reading) :
    List Reading × Except String (ℕ × CalcBody) :=
  (store, calculate_band_gap store)

/-! ## Concrete inputs used to exercise the model -/

/-- Whether an HTTP status code is in the client-error class. -/
def isClientError (s : ℕ) : Prop := 400 ≤ s ∧ s < 500

instance (s : ℕ) : Decidable (isClientError s) := by
  unfold isClientError; infer_instance

/-- The message `float(None)` raises. -/
def floatNoneMsg : String :=
  "float() argument must be a string or a number, not NoneType"

/-- A store of three readings: two pass the current filter (with temperatures
chosen so the transformed abscissae are 1 and 2), one falls below it. -/
def demoStore : List Reading :=
  [⟨-272.15, 1, 0⟩, ⟨25, 1e-10, 3⟩, ⟨-272.65, 2, 0⟩]

/-- Working-set abscissae of `demoStore`. -/
def demoXs : List ℚ := [1, 2]

/-- Working-set ordinates of `demoStore`. -/
noncomputable def demoYs : List ℝ := [0, Real.log 2]

/-- The success body `calculate_band_gap` produces on `demoStore`. -/
noncomputable def demoB : CalcSuccess :=
  ⟨calcOkMsg, -2 * 8.617e-5 * Real.log 2, 1 ^ 2, Real.log 2,
    demoXs.map (fun x => (x : ℝ)), demoYs⟩

/-- A store whose single reading passes the current filter but sits at
absolute zero, so `1 / T_kelvin` divides by zero. -/
def badStore : List Reading := [⟨-273.15, 1, 0⟩]

/-- A payload whose `voltage` key is missing. -/
def badPayload : Payload := ⟨some (.num 25), some (.num 1), none⟩

/-- Two valid payloads around one invalid one. -/
def demoPayloads : List Payload :=
  [⟨some (.num 25), some (.num 1), some (.num 0)⟩, badPayload,
    ⟨some (.num 50), some (.num 2), some (.num 1)⟩]

/-! ## Helper lemmas -/

/-- `log_data` is `parseReading` followed by append-or-report. -/
theorem log_data_parse (store : List Reading) (p : Payload) :
    log_data store p =
      match parseReading p with
      | .ok r => (store ++ [r], (201, .okBody loggedMsg store.length))
      | .error e => (store, (500, .errMsg ("Failed to log data: " ++ e))) := by
  unfold log_data parseReading
  cases pyFloat p.temperature with
  | error e => rfl
  | ok t =>
    cases pyFloat p.current with
    | error e => rfl
    | ok c =>
      cases pyFloat p.voltage with
      | error e => rfl
      | ok v => rfl

/-- The final store of an ingestion sequence is the initial store followed by
the successfully parsed readings, in submission order, and each successful
call's response carries status 201 and the 0-based index at which its reading
was appended. -/
theorem runIngest_spec (ps : List Payload) : ∀ store : List Reading,
    (runIngest store ps).1 = store ++ successes ps ∧
    ∀ (k : ℕ) (p : Payload) (r : Reading), ps[k]? = some p →
      parseReading p = .ok r →
      (runIngest store ps).2[k]? =
        some (201, .okBody loggedMsg
          (store.length + (successes (ps.take k)).length)) := by
  induction ps with
  | nil =>
    intro store
    refine ⟨by simp [runIngest, successes], ?_⟩
    intro k p r hk
    simp at hk
  | cons p ps ih =>
    intro store
    cases hp : parseReading p with
    | ok r0 =>
      have hld : log_data store p =
          (store ++ [r0], (201, .okBody loggedMsg store.length)) := by
        rw [log_data_parse, hp]
      have hsucc : successes (p :: ps) = r0 :: successes ps := by
        simp [successes, List.filterMap_cons, hp, Except.toOption]
      constructor
      · show (runIngest (log_data store p).1 ps).1 = _
        rw [hld, (ih (store ++ [r0])).1, hsucc]
        simp
      · intro k q r hk hq
        cases k with
        | zero =>
          simp at hk
          subst hk
          show ((log_data store p).2 :: _)[0]? = _
          rw [hld]
          simp [successes]
        | succ k =>
          simp only [List.getElem?_cons_succ] at hk
          show ((log_data store p).2 :: (runIngest (log_data store p).1 ps).2)[k + 1]? = _
          rw [hld]
          simp only [List.getElem?_cons_succ]
          have h2 := (ih (store ++ [r0])).2 k q r hk hq
          rw [h2]
          simp only [List.take_succ_cons]
          simp [successes, List.filterMap_cons, hp, Except.toOption,
            Nat.add_assoc, Nat.add_comm 1]
    | error e =>
      have hld : log_data store p =
          (store, (500, .errMsg ("Failed to log data: " ++ e))) := by
        rw [log_data_parse, hp]
      have hsucc : successes (p :: ps) = successes ps := by
        simp [successes, List.filterMap_cons, hp, Except.toOption]
      constructor
      · show (runIngest (log_data store p).1 ps).1 = _
        rw [hld, (ih store).1, hsucc]
      · intro k q r hk hq
        cases k with
        | zero =>
          simp at hk
          subst hk
          rw [hp] at hq
          exact absurd hq (by simp)
        | succ k =>
          simp only [List.getElem?_cons_succ] at hk
          show ((log_data store p).2 :: (runIngest (log_data store p).1 ps).2)[k + 1]? = _
          rw [hld]
          simp only [List.getElem?_cons_succ]
          have h2 := (ih store).2 k q r hk hq
          rw [h2]
          simp [successes, List.filterMap_cons, hp, Except.toOption]

/-- When the transform loop completes, its outputs are exactly the filtered
readings mapped through the two transforms, in store order. -/
theorem buildPoints_ok (store : List Reading) :
    ∀ xs ys, buildPoints store = .ok (xs, ys) →
      xs = (store.filter (fun r => decide (1e-9 < r.current))).map
            (fun r => 1 / (r.temperature + 273.15)) ∧
      ys = (store.filter (fun r => decide (1e-9 < r.current))).map
            (fun r => Real.log (r.current : ℝ)) := by
  induction store with
  | nil =>
    intro xs ys h
    simp [buildPoints] at h
    simp [h.1.symm, h.2.symm]
  | cons r rest ih =>
    intro xs ys h
    by_cases hc : 1e-9 < r.current
    · by_cases hT : r.temperature + 273.15 = 0
      · simp [buildPoints, hc, hT] at h
      · have hlog : mathLog r.current = .ok (Real.log (r.current : ℝ)) := by
          have : ¬ r.current ≤ 0 := by
            intro hle
            exact absurd (lt_of_lt_of_le hc hle) (by norm_num)
          simp [mathLog, this]
        cases hrest : buildPoints rest with
        | error e => simp [buildPoints, hc, hT, hlog, hrest] at h
        | ok pair =>
          obtain ⟨xs', ys'⟩ := pair
          simp [buildPoints, hc, hT, hlog, hrest] at h
          obtain ⟨hxs, hys⟩ := h
          obtain ⟨ihx, ihy⟩ := ih xs' ys' hrest
          subst hxs hys
          simp [List.filter_cons, hc, ihx, ihy]
    · simp only [buildPoints, if_neg hc] at h
      obtain ⟨ihx, ihy⟩ := ih xs ys h
      simp [List.filter_cons, hc, ihx, ihy]

/-- When no reading passing the current filter sits at absolute zero, the
transform loop completes. -/
theorem buildPoints_total (store : List Reading)
    (h : ∀ r ∈ store, 1e-9 < r.current → r.temperature + 273.15 ≠ 0) :
    ∃ xs ys, buildPoints store = .ok (xs, ys) := by
  induction store with
  | nil => exact ⟨[], [], rfl⟩
  | cons r rest ih =>
    obtain ⟨xs, ys, hrest⟩ := ih (fun s hs => h s (List.mem_cons_of_mem r hs))
    by_cases hc : 1e-9 < r.current
    · have hT : r.temperature + 273.15 ≠ 0 := h r (List.mem_cons_self r rest) hc
      have hlog : mathLog r.current = .ok (Real.log (r.current : ℝ)) := by
        have : ¬ r.current ≤ 0 := by
          intro hle
          exact absurd (lt_of_lt_of_le hc hle) (by norm_num)
        simp [mathLog, this]
      refine ⟨1 / (r.temperature + 273.15) :: xs, Real.log (r.current : ℝ) :: ys, ?_⟩
      simp [buildPoints, hc, hT, hlog, hrest]
    · refine ⟨xs, ys, ?_⟩
      simp only [buildPoints, if_neg hc]
      exact hrest

/-- A reading at absolute zero that passes the current filter makes the
transform loop raise `ZeroDivisionError`. -/
theorem buildPoints_zero_div (store : List Reading)
    (h : ∃ r ∈ store, 1e-9 < r.current ∧ r.temperature + 273.15 = 0) :
    buildPoints store = .error zeroDivMsg := by
  induction store with
  | nil => simp at h
  | cons r rest ih =>
    by_cases hc : 1e-9 < r.current
    · by_cases hT : r.temperature + 273.15 = 0
      · simp [buildPoints, hc, hT]
      · have hbad : ∃ s ∈ rest, 1e-9 < s.current ∧ s.temperature + 273.15 = 0 := by
          obtain ⟨s, hs, hsc, hsT⟩ := h
          rcases List.mem_cons.mp hs with heq | hmem
          · exact absurd (heq ▸ hsT) hT
          · exact ⟨s, hmem, hsc, hsT⟩
        have hlog : mathLog r.current = .ok (Real.log (r.current : ℝ)) := by
          have : ¬ r.current ≤ 0 := by
            intro hle
            exact absurd (lt_of_lt_of_le hc hle) (by norm_num)
          simp [mathLog, this]
        simp [buildPoints, hc, hT, hlog, ih hbad]
    · have hbad : ∃ s ∈ rest, 1e-9 < s.current ∧ s.temperature + 273.15 = 0 := by
        obtain ⟨s, hs, hsc, hsT⟩ := h
        rcases List.mem_cons.mp hs with heq | hmem
        · exact absurd (heq ▸ hsc) hc
        · exact ⟨s, hmem, hsc, hsT⟩
      simp only [buildPoints, if_neg hc]
      exact ih hbad

/-- The completed working set has one point per reading passing the filter. -/
theorem buildPoints_length (store : List Reading) (xs : List ℚ) (ys : List ℝ)
    (h : buildPoints store = .ok (xs, ys)) : xs.length = countValid store := by
  rw [(buildPoints_ok store xs ys h).1, countValid, List.length_map]

/-- The coefficients `polyfit` returns satisfy the ordinary-least-squares
normal equations of the degree-1 fit of y on x. -/
theorem polyfit_normal (xs : List ℚ) (ys : List ℝ) (slope intercept : ℝ)
    (h : polyfit xs ys = .ok (slope, intercept)) :
    slope * (sumX2 xs : ℝ) + intercept * (sumX xs : ℝ) = dotXY xs ys ∧
    slope * (sumX xs : ℝ) + intercept * (xs.length : ℝ) = sumY ys := by
  unfold polyfit at h
  by_cases hd : (xs.length : ℚ) * sumX2 xs - sumX xs * sumX xs = 0
  · simp [hd] at h
  · simp only [if_neg hd, Except.ok.injEq, Prod.mk.injEq] at h
    obtain ⟨hs, hi⟩ := h
    have hn : (xs.length : ℚ) ≠ 0 := by
      intro h0
      apply hd
      have hxs : xs = [] := List.length_eq_zero.mp (by exact_mod_cast h0)
      subst hxs
      simp [sumX, sumX2]
    have hnR : (xs.length : ℝ) ≠ 0 := by exact_mod_cast hn
    have hdR : (xs.length : ℝ) * (sumX2 xs : ℝ) - (sumX xs : ℝ) * (sumX xs : ℝ) ≠ 0 := by
      intro h0
      apply hd
      have : (((xs.length : ℚ) * sumX2 xs - sumX xs * sumX xs : ℚ) : ℝ) = 0 := by
        push_cast
        exact h0
      exact_mod_cast this
    subst hs hi
    have hcast : (((xs.length : ℚ) * sumX2 xs - sumX xs * sumX xs : ℚ) : ℝ) =
        (xs.length : ℝ) * (sumX2 xs : ℝ) - (sumX xs : ℝ) * (sumX xs : ℝ) := by
      push_cast
      ring
    rw [hcast]
    constructor
    · field_simp
      ring
    · field_simp
      ring

/-- Evaluation of the transform loop on `demoStore`. -/
theorem demo_buildPoints : buildPoints demoStore = .ok (demoXs, demoYs) := by
  norm_num [demoStore, demoXs, demoYs, buildPoints, mathLog]

/-- Evaluation of the least-squares fit on the demo working set. -/
theorem demo_polyfit : polyfit demoXs demoYs = .ok (Real.log 2, -Real.log 2) := by
  norm_num [polyfit, demoXs, demoYs, sumX, sumX2, sumY, dotXY, Real.log_one]
  constructor <;> ring

/-- Evaluation of the correlation on the demo working set. -/
theorem demo_pearson : pearsonr demoXs demoYs = .ok 1 := by
  have hlog : (0:ℝ) < Real.log 2 := Real.log_pos one_lt_two
  unfold pearsonr
  norm_num [demoXs, demoYs, sumX, sumX2, sumY, sumY2, dotXY, Real.log_one]
  rw [show (2:ℝ) * (Real.log 2 * Real.log 2) - Real.log 2 * Real.log 2 =
    Real.log 2 ^ 2 by ring]
  rw [if_neg (pow_ne_zero 2 (ne_of_gt hlog))]
  rw [Real.sqrt_sq hlog.le]
  rw [show (2:ℝ) * (2 * Real.log 2) - 3 * Real.log 2 = Real.log 2 by ring]
  rw [div_self (ne_of_gt hlog)]

/-- Evaluation of the whole estimator on `demoStore`. -/
theorem demo_calc : calculate_band_gap demoStore = .ok (200, .success demoB) := by
  unfold calculate_band_gap
  rw [demo_buildPoints]
  norm_num [show demoXs.length = 2 from rfl, demo_polyfit, demo_pearson, demoB]

/-! ## Claims -/

/-- Claim C1: whenever the estimator's transform loop completes, its working
set contains exactly the readings with `current > 1e-9`, each contributing the
point `(1 / (temperature + 273.15), ln current)` in store order; a reading
with `current <= 1e-9` is omitted from the fit yet still returned by
`get_all_data`. -/
theorem c1_working_set (store : List Reading) (xs : List ℚ) (ys : List ℝ)
    (hbp : buildPoints store = .ok (xs, ys)) :
    xs = (store.filter (fun r => decide (1e-9 < r.current))).map
          (fun r => 1 / (r.temperature + 273.15)) ∧
    ys = (store.filter (fun r => decide (1e-9 < r.current))).map
          (fun r => Real.log (r.current : ℝ)) ∧
    ∀ r ∈ store, r.current ≤ 1e-9 → r ∈ (get_all_data store).1 := by
  obtain ⟨hx, hy⟩ := buildPoints_ok store xs ys hbp
  exact ⟨hx, hy, fun r hr _ => hr⟩

/-- Witness for C1 at `demoStore`: its below-threshold reading is still in
`get_all_data`. -/
theorem c1_witness : (⟨25, 1e-10, 3⟩ : Reading) ∈ (get_all_data demoStore).1 :=
  (c1_working_set demoStore demoXs demoYs demo_buildPoints).2.2
    ⟨25, 1e-10, 3⟩ (by simp [demoStore]) (by norm_num)

/-- Claim C2: on a successful fit the response's `band_gap_eV` is
`-2 * 8.617e-5 * slope` and its `slope_value` is that same `slope`, where
`slope` (with the returned intercept) is the degree-1 ordinary-least-squares
fit of y on x over the working set — it satisfies the OLS normal
equations. -/
theorem c2_band_gap_formula (store : List Reading) (xs : List ℚ) (ys : List ℝ)
    (slope intercept : ℝ) (b : CalcSuccess)
    (hbp : buildPoints store = .ok (xs, ys))
    (hfit : polyfit xs ys = .ok (slope, intercept))
    (hok : calculate_band_gap store = .ok (200, .success b)) :
    b.band_gap_eV = -2 * 8.617e-5 * slope ∧ b.slope_value = slope ∧
    slope * (sumX2 xs : ℝ) + intercept * (sumX xs : ℝ) = dotXY xs ys ∧
    slope * (sumX xs : ℝ) + intercept * (xs.length : ℝ) = sumY ys := by
  have hne := polyfit_normal xs ys slope intercept hfit
  unfold calculate_band_gap at hok
  simp only [hbp] at hok
  by_cases hlen : xs.length < 2
  · rw [if_pos hlen] at hok
    simp at hok
  · rw [if_neg hlen] at hok
    simp only [hfit] at hok
    cases hr : pearsonr xs ys with
    | error e =>
      simp only [hr] at hok
      simp at hok
    | ok r =>
      simp only [hr] at hok
      simp only [Except.ok.injEq, Prod.mk.injEq, CalcBody.success.injEq] at hok
      obtain ⟨-, hb⟩ := hok
      subst hb
      exact ⟨rfl, rfl, hne.1, hne.2⟩

/-- Witness for C2 at `demoStore`. -/
theorem c2_witness :
    demoB.band_gap_eV = -2 * 8.617e-5 * Real.log 2 ∧
    demoB.slope_value = Real.log 2 := by
  have h := c2_band_gap_formula demoStore demoXs demoYs (Real.log 2)
    (-Real.log 2) demoB demo_buildPoints demo_polyfit demo_calc
  exact ⟨h.1, h.2.1⟩

/-- Claim C3 (amended): a working set of fewer than 2 points yields the 400
insufficient-data response and no fit, provided no filtered-in reading sits at
temperature exactly -273.15 (in that case the unguarded division of C10 raises
before the length check); with 2 or more working-set points the
insufficient-data response is never produced. -/
theorem c3_insufficient_data (store : List Reading) :
    (countValid store < 2 →
      (∀ r ∈ store, 1e-9 < r.current → r.temperature ≠ -273.15) →
      calculate_band_gap store = .ok (400, .errMsg insufficientMsg)) ∧
    (2 ≤ countValid store →
      calculate_band_gap store ≠ .ok (400, .errMsg insufficientMsg)) := by
  constructor
  · intro hlt hT
    have hT' : ∀ r ∈ store, 1e-9 < r.current → r.temperature + 273.15 ≠ 0 := by
      intro r hr hc h0
      exact hT r hr hc (by linarith)
    obtain ⟨xs, ys, hbp⟩ := buildPoints_total store hT'
    have hlen : xs.length < 2 := by
      rw [buildPoints_length store xs ys hbp]
      exact hlt
    unfold calculate_band_gap
    simp only [hbp]
    rw [if_pos hlen]
  · intro hge hok
    cases hbp : buildPoints store with
    | error e =>
      unfold calculate_band_gap at hok
      simp only [hbp] at hok
      simp at hok
    | ok pair =>
      obtain ⟨xs, ys⟩ := pair
      have hlen : ¬ xs.length < 2 := by
        rw [buildPoints_length store xs ys hbp]
        omega
      unfold calculate_band_gap at hok
      simp only [hbp] at hok
      rw [if_neg hlen] at hok
      cases hf : polyfit xs ys with
      | error e =>
        simp only [hf] at hok
        simp at hok
      | ok p =>
        obtain ⟨slope, intercept⟩ := p
        simp only [hf] at hok
        cases hr : pearsonr xs ys with
        | error e =>
          simp only [hr] at hok
          simp at hok
        | ok r =>
          simp only [hr] at hok
          simp at hok

/-- Counterexample to C3 as stated: `badStore` has a working set of one point
(fewer than 2), yet `calculate_band_gap` does not return the 400
insufficient-data response — the transform loop raises first. -/
theorem c3_counterexample :
    countValid badStore < 2 ∧
    calculate_band_gap badStore ≠ .ok (400, .errMsg insufficientMsg) := by
  have hb : buildPoints badStore = .error zeroDivMsg :=
    buildPoints_zero_div badStore
      ⟨⟨-273.15, 1, 0⟩, by simp [badStore], by norm_num, by norm_num⟩
  constructor
  · norm_num [countValid, badStore]
  · unfold calculate_band_gap
    simp only [hb]
    simp

/-- Witness for C3: the empty store gets the 400 response; `demoStore`, with
two working-set points, does not. -/
theorem c3_witness :
    calculate_band_gap [] = .ok (400, .errMsg insufficientMsg) ∧
    calculate_band_gap demoStore ≠ .ok (400, .errMsg insufficientMsg) := by
  constructor
  · exact (c3_insufficient_data []).1 (by norm_num [countValid]) (by simp)
  · exact (c3_insufficient_data demoStore).2 (by norm_num [countValid, demoStore])

/-- Claim C4: ingestion is atomic — a payload with a missing or unparsable
field leaves the store exactly as it was, and consequently every reading ever
present in a store reachable by ingestion alone was fully parsed from some
submitted payload. -/
theorem c4_atomic_ingestion :
    (∀ (store : List Reading) (p : Payload),
      ((pyFloat p.temperature).isOk = false ∨ (pyFloat p.current).isOk = false ∨
        (pyFloat p.voltage).isOk = false) →
      (log_data store p).1 = store) ∧
    (∀ (ps : List Payload) (r : Reading), r ∈ (runIngest [] ps).1 →
      ∃ p, p ∈ ps ∧ parseReading p = .ok r) := by
  constructor
  · intro store p h
    unfold log_data
    cases ht : pyFloat p.temperature with
    | error e => rfl
    | ok t =>
      cases hc : pyFloat p.current with
      | error e => rfl
      | ok c =>
        cases hv : pyFloat p.voltage with
        | error e => rfl
        | ok v =>
          exfalso
          rcases h with h | h | h
          · rw [ht] at h
            simp [Except.isOk, Except.toBool] at h
          · rw [hc] at h
            simp [Except.isOk, Except.toBool] at h
          · rw [hv] at h
            simp [Except.isOk, Except.toBool] at h
  · have key : ∀ (ps : List Payload) (store : List Reading) (r : Reading),
        r ∈ (runIngest store ps).1 →
        r ∈ store ∨ ∃ p, p ∈ ps ∧ parseReading p = .ok r := by
      intro ps
      induction ps with
      | nil =>
        intro store r hr
        left
        exact hr
      | cons p ps ih =>
        intro store r hr
        rcases ih (log_data store p).1 r hr with hin | ⟨q, hq, hpq⟩
        · cases hp : parseReading p with
          | ok r0 =>
            rw [log_data_parse, hp] at hin
            rcases List.mem_append.mp hin with h1 | h2
            · left
              exact h1
            · right
              refine ⟨p, List.mem_cons_self p ps, ?_⟩
              simp at h2
              rw [hp, h2]
          | error e =>
            rw [log_data_parse, hp] at hin
            left
            exact hin
        · right
          exact ⟨q, List.mem_cons_of_mem p hq, hpq⟩
    intro ps r hr
    rcases key ps [] r hr with h | h
    · simp at h
    · exact h

/-- Witness for C4: ingesting a payload with no `voltage` leaves the empty
store empty. -/
theorem c4_witness : (log_data [] badPayload).1 = [] :=
  c4_atomic_ingestion.1 [] badPayload (Or.inr (Or.inr rfl))

/-- Claim C5 (amended): a payload with a missing or unparsable field makes the
handler report the underlying parse error message — but with the server-error
status 500, not a client-error-class one. -/
theorem c5_error_report (store : List Reading) (p : Payload) (e : String)
    (h : parseReading p = .error e) :
    (log_data store p).2 = (500, .errMsg ("Failed to log data: " ++ e)) := by
  rw [log_data_parse, h]

/-- Witness for C5 at `badPayload`. -/
theorem c5_witness :
    (log_data [] badPayload).2 =
      (500, .errMsg ("Failed to log data: " ++ floatNoneMsg)) :=
  c5_error_report [] badPayload floatNoneMsg rfl

/-- Counterexample to C5 as stated: the reported status is 500, which is not
in the client-error class. -/
theorem c5_counterexample :
    (log_data [] badPayload).2.1 = 500 ∧
    ¬ isClientError (log_data [] badPayload).2.1 := by
  refine ⟨rfl, ?_⟩
  intro h
  rw [show (log_data [] badPayload).2.1 = 500 from rfl] at h
  exact absurd h.2 (by norm_num)

/-- Claim C6: on a successful computation the response's `r_squared` is the
square of the Pearson correlation coefficient of the working set's x and y
arrays. -/
theorem c6_r_squared (store : List Reading) (xs : List ℚ) (ys : List ℝ)
    (r : ℝ) (b : CalcSuccess)
    (hbp : buildPoints store = .ok (xs, ys))
    (hr : pearsonr xs ys = .ok r)
    (hok : calculate_band_gap store = .ok (200, .success b)) :
    b.r_squared = r ^ 2 := by
  unfold calculate_band_gap at hok
  simp only [hbp] at hok
  by_cases hlen : xs.length < 2
  · rw [if_pos hlen] at hok
    simp at hok
  · rw [if_neg hlen] at hok
    cases hf : polyfit xs ys with
    | error e =>
      simp only [hf] at hok
      simp at hok
    | ok p =>
      obtain ⟨slope, intercept⟩ := p
      simp only [hf, hr] at hok
      simp only [Except.ok.injEq, Prod.mk.injEq, CalcBody.success.injEq] at hok
      obtain ⟨-, hb⟩ := hok
      subst hb
      rfl

/-- Witness for C6 at `demoStore`, whose correlation is exactly 1. -/
theorem c6_witness : demoB.r_squared = 1 ^ 2 :=
  c6_r_squared demoStore demoXs demoYs 1 demoB demo_buildPoints demo_pearson
    demo_calc

/-- Claim C7: `get_all_data` counts exactly the successful ingestions on top
of the initial store and returns the readings in submission order, and each
successful ingestion answers with the 0-based position at which its reading
was appended. -/
theorem c7_count_order (ps : List Payload) (store : List Reading) :
    (runIngest store ps).1 = store ++ successes ps ∧
    (get_all_data (runIngest store ps).1).2 =
      store.length + (successes ps).length ∧
    ∀ (k : ℕ) (p : Payload) (r : Reading), ps[k]? = some p →
      parseReading p = .ok r →
      (runIngest store ps).2[k]? =
        some (201, .okBody loggedMsg
          (store.length + (successes (ps.take k)).length)) := by
  obtain ⟨h1, h2⟩ := runIngest_spec ps store
  refine ⟨h1, ?_, h2⟩
  show (runIngest store ps).1.length = _
  rw [h1, List.length_append]

/-- Witness for C7: in `demoPayloads` the third call (after one success and
one failure) reports id 1. -/
theorem c7_witness :
    (runIngest [] demoPayloads).2[2]? = some (201, .okBody loggedMsg 1) := by
  have h := (c7_count_order demoPayloads []).2.2 2
    ⟨some (.num 50), some (.num 2), some (.num 1)⟩ ⟨50, 2, 1⟩ rfl rfl
  have e1 : ([] : List Reading).length +
      (successes (demoPayloads.take 2)).length = 1 := rfl
  rw [e1] at h
  exact h

/-- Claim C8: `calculate_band_gap` never mutates the store — the handler's
resulting store state is the input store, element for element. -/
theorem c8_store_frame (store : List Reading) :
    (calculate_band_gap_handler store).1 = store ∧
    ∀ i : ℕ, ((calculate_band_gap_handler store).1)[i]? = store[i]? :=
  ⟨rfl, fun _ => rfl⟩

/-- Claim C9: two consecutive calls of `calculate_band_gap` with no
intervening ingestion return identical results. -/
theorem c9_deterministic (store : List Reading) :
    (calculate_band_gap_handler ((calculate_band_gap_handler store).1)).2 =
      (calculate_band_gap_handler store).2 :=
  rfl

/-- Claim C10: a filtered-in reading at temperature exactly -273.15 makes
`calculate_band_gap` raise `ZeroDivisionError` — the outcome is no HTTP
response at all, in particular neither the 400 nor the 500 one; when every
filtered-in reading avoids that temperature, the transform (its logarithm
argument guarded positive by the current filter) is total. -/
theorem c10_unguarded_division (store : List Reading) :
    ((∃ r ∈ store, r.temperature = -273.15 ∧ 1e-9 < r.current) →
      calculate_band_gap store = .error zeroDivMsg ∧
      ∀ resp : ℕ × CalcBody, calculate_band_gap store ≠ .ok resp) ∧
    ((∀ r ∈ store, 1e-9 < r.current → r.temperature ≠ -273.15) →
      (buildPoints store).isOk = true) := by
  constructor
  · intro h
    have hb : buildPoints store = .error zeroDivMsg := by
      apply buildPoints_zero_div
      obtain ⟨r, hr, hT, hc⟩ := h
      refine ⟨r, hr, hc, ?_⟩
      rw [hT]
      norm_num
    have hcalc : calculate_band_gap store = .error zeroDivMsg := by
      unfold calculate_band_gap
      simp only [hb]
    refine ⟨hcalc, fun resp hresp => ?_⟩
    rw [hcalc] at hresp
    exact Except.noConfusion hresp
  · intro h
    obtain ⟨xs, ys, hbp⟩ :=
      buildPoints_total store (fun r hr hc h0 => h r hr hc (by linarith))
    rw [hbp]
    rfl

/-- Witness for C10: `badStore` raises; `demoStore` transforms totally. -/
theorem c10_witness :
    calculate_band_gap badStore = .error zeroDivMsg ∧
    (buildPoints demoStore).isOk = true := by
  constructor
  · exact ((c10_unguarded_division badStore).1
      ⟨⟨-273.15, 1, 0⟩, by simp [badStore], rfl, by norm_num⟩).1
  · refine (c10_unguarded_division demoStore).2 ?_
    intro r hr hc
    fin_cases hr <;> norm_num

end BandGapSim
